import Mathlib

/-!
Shallow embedding of the apisix-registration package: the upstream
reconciliation logic of the Admin API client (`createUpstream`,
`addNodeToUpstream`, `deleteNode`), the service lifecycle manager
(`New`, `Register`, `Deregister`, `StartHealthCheck`, `Shutdown`,
`StartWithGracefulShutdown`), and the health integration layer
(`defaultHealthResponse` and the four mounting variants).

The remote gateway state for one upstream id is modelled as
`Option UpstreamDoc` (`none` models a GET answering 404).  The JSON
`nodes` object is modelled as an association list from node key
`"host:port"` to weight; a decoded JSON object has pairwise distinct
keys, which is the `nodesWF` hypothesis.  HTTP transport is modelled on
the happy path: every request reaches the gateway and the gateway
answers as the admin API specifies, so the client functions are total
and their error returns do not appear.  Each operation returns, besides
the new remote state, the list of write requests it issued, so that
"performs no write" and "never deletes the upstream" are statable.
-/

namespace ApisixRegistration

/-- Node set of an upstream document: association list from node key
`"host:port"` to integer weight, as decoded from the JSON `nodes`
object. -/
abbrev Nodes := List (String × Nat)

/-- A decoded JSON object has pairwise distinct keys. -/
def nodesWF (ns : Nodes) : Prop :=
  (ns.map Prod.fst).Nodup

instance (ns : Nodes) : Decidable (nodesWF ns) := by
  unfold nodesWF
  infer_instance

/-- Membership test of a node key, mirroring Go's
`if _, exists := nodes[nodeKey]; exists`. -/
def nodesHas (ns : Nodes) (k : String) : Bool :=
  ns.any (fun p => p.1 == k)

/-- Weight stored under a node key. -/
def nodesLookup (ns : Nodes) (k : String) : Option Nat :=
  match ns with
  | [] => none
  | p :: rest => if p.1 == k then some p.2 else nodesLookup rest k

/-- Number of entries carrying the key `k`. -/
def countKey (ns : Nodes) (k : String) : Nat :=
  (ns.filter (fun p => p.1 == k)).length

/-- The upstream document `{"name", "type", "nodes"}` stored by the
gateway under one upstream id. -/
structure UpstreamDoc where
  name : String
  utype : String
  nodes : Nodes
deriving DecidableEq

/-- Body of a PATCH request to `/upstreams/{id}`.  Each scalar field is
`some` exactly when the JSON body carries that field; `deleteNode` sends
the whole fetched `value` object, whose `nodes` map holds `none` for a
node set to null. -/
structure PatchBody where
  name : Option String
  utype : Option String
  nodes : List (String × Option Nat)
deriving DecidableEq

/-- A write request issued against the admin API for one upstream id. -/
inductive AdminWrite where
  | putUpstream (doc : UpstreamDoc)
  | patchUpstream (body : PatchBody)
  | deleteUpstreamW
deriving DecidableEq

/-- `true` on the write that deletes the upstream document itself. -/
def writeIsDeleteUpstream : AdminWrite → Bool
  | AdminWrite.deleteUpstreamW => true
  | _ => false

/-- Modelled from the spec: the spec states that `removeNode` PATCHes
"only the `nodes` field back", i.e. a patch body carrying no `name` and
no `type` field.  Used to compare the spec's stated write shape with the
body the code actually sends. -/
def specPatchOnlyNodesField : AdminWrite → Bool
  | AdminWrite.patchUpstream b => b.name.isNone && b.utype.isNone
  | _ => true

/-- `nodeKey := fmt.Sprintf("%s:%d", host, port)`. -/
def nodeKey (host : String) (port : Int) : String :=
  host ++ ":" ++ toString port

/-- `checkUpstreamExists`: GET by id, 404 means absent, 200 means
present. -/
def checkUpstreamExists (st : Option UpstreamDoc) : Bool :=
  st.isSome

/-- `addNodeToUpstream`: fetch the document; if the node key is already
present, no-op success; otherwise insert it with weight 1 and PUT the
full updated document back. -/
def addNodeToUpstream (host : String) (port : Int) (doc : UpstreamDoc) :
    UpstreamDoc × List AdminWrite :=
  let k := nodeKey host port
  if nodesHas doc.nodes k then
    (doc, [])
  else
    let newDoc : UpstreamDoc := { doc with nodes := doc.nodes ++ [(k, 1)] }
    (newDoc, [AdminWrite.putUpstream newDoc])

/-- `createUpstream`: check existence; if absent, PUT a fresh document
`{name, type: roundrobin, nodes: {nodeKey: 1}}`; if present, delegate to
`addNodeToUpstream`. -/
def createUpstream (name host : String) (port : Int)
    (st : Option UpstreamDoc) : Option UpstreamDoc × List AdminWrite :=
  if checkUpstreamExists st then
    match st with
    | some doc =>
      let r := addNodeToUpstream host port doc
      (some r.1, r.2)
    | none => (none, [])
  else
    let k := nodeKey host port
    let doc : UpstreamDoc := { name := name, utype := "roundrobin", nodes := [(k, 1)] }
    (some doc, [AdminWrite.putUpstream doc])

/-- `nodes[node] = nil`: the fetched node map with the weight of `node`
replaced by JSON null. -/
def setNodeNull (ns : Nodes) (node : String) : List (String × Option Nat) :=
  ns.map (fun p => if p.1 == node then (p.1, none) else (p.1, some p.2))

/-- Modelled from the spec (§6, gateway side): applying a PATCHed node
map, a null value removes the key and a present weight keeps it. -/
def applyPatchNodes (pns : List (String × Option Nat)) : Nodes :=
  pns.filterMap (fun p => p.2.map (fun w => (p.1, w)))

/-- `deleteNode`: fetch the document; on 404 success with no write; if
the node key is absent success with no write; otherwise set that node to
null and PATCH the whole fetched `value` (name, type and nodes) back.
The resulting remote state applies the patch per `applyPatchNodes`. -/
def deleteNode (node : String) (st : Option UpstreamDoc) :
    Option UpstreamDoc × List AdminWrite :=
  match st with
  | none => (none, [])
  | some doc =>
    if nodesHas doc.nodes node then
      let body : PatchBody :=
        { name := some doc.name
          utype := some doc.utype
          nodes := setNodeNull doc.nodes node }
      (some { doc with nodes := applyPatchNodes body.nodes },
       [AdminWrite.patchUpstream body])
    else
      (some doc, [])

/-- Weight of a node key in the remote state of one upstream id. -/
def upstreamLookup (st : Option UpstreamDoc) (k : String) : Option Nat :=
  match st with
  | none => none
  | some doc => nodesLookup doc.nodes k

/-- Distinct keys of the remote state, `nodesWF` lifted. -/
def upstreamWF (st : Option UpstreamDoc) : Prop :=
  match st with
  | none => True
  | some doc => nodesWF doc.nodes

instance (st : Option UpstreamDoc) : Decidable (upstreamWF st) := by
  unfold upstreamWF
  cases st <;> infer_instance

/-! ## Service lifecycle manager (registration.go) -/

/-- `DefaultHealthCheckInterval = 5`. -/
def DefaultHealthCheckInterval : Int := 5

/-- The construction errors `New` can return. -/
inductive NewError where
  | invalidConfig
  | emptyHost
  | invalidPort
deriving DecidableEq

/-- `HealthCheckConfig`.  The second copy of registration.go names the
route field `Path`; it plays the same role as `Route` in the first. -/
structure HealthCheckConfig where
  enabled : Bool
  timeout : Int
  maxFails : Int
  method : String
  route : String
  healthyCode : Int
  unhealthyCode : Int
deriving DecidableEq

/-- `Config`: the service configuration handed to `New`. -/
structure Config where
  name : String
  host : String
  port : Int
  path : String
  upstreamId : String
  upstreamTypes : String
  adminAPI : String
  apiKey : String
  healthCfg : HealthCheckConfig
deriving DecidableEq

/-- The fields of `Service` the claims are about. -/
structure Service where
  name : String
  host : String
  port : Int
  path : String
  upstreamID : String
  routeID : String
  healthCheck : Bool
  interval : Int
deriving DecidableEq

/-- `upstreamID = fmt.Sprintf("%s_%s_%d", cfg.Name, cfg.Host, cfg.Port)`. -/
def deriveUpstreamId (name host : String) (port : Int) : String :=
  name ++ "_" ++ host ++ "_" ++ toString port

/-- `New`: synchronous validation and defaulting, no network I/O.
Empty name, empty host and non-positive port each fail construction; an
empty `Path` defaults to `"/"`; an empty upstream id is derived from
name, host and port; `interval` is set only when health checking is
enabled (Go zero value otherwise). -/
def New (cfg : Config) : Except NewError Service :=
  if cfg.name = "" then Except.error NewError.invalidConfig
  else if cfg.host = "" then Except.error NewError.emptyHost
  else if cfg.port ≤ 0 then Except.error NewError.invalidPort
  else
    Except.ok
      { name := cfg.name
        host := cfg.host
        port := cfg.port
        path := if cfg.path = "" then "/" else cfg.path
        upstreamID :=
          if cfg.upstreamId = "" then deriveUpstreamId cfg.name cfg.host cfg.port
          else cfg.upstreamId
        routeID := cfg.name ++ "_route"
        healthCheck := cfg.healthCfg.enabled
        interval := if cfg.healthCfg.enabled then DefaultHealthCheckInterval else 0 }

/-- `Register`: fails on an empty admin address, otherwise calls the
client's `createUpstream` for this service's upstream.  Returns whether
it succeeded, the new remote state and the writes issued. -/
def Register (s : Service) (adminAPI : String) (st : Option UpstreamDoc) :
    Bool × Option UpstreamDoc × List AdminWrite :=
  if adminAPI = "" then (false, st, [])
  else
    let r := createUpstream s.name s.host s.port st
    (true, r.1, r.2)

/-- `Deregister`: fails on an empty admin address; computes the node key
and calls the client's `deleteNode` only when `upstreamID` is non-empty.
The third component records the node key passed to `deleteNode`, `none`
when no deletion against the gateway was attempted. -/
def Deregister (s : Service) (adminAPI : String) (st : Option UpstreamDoc) :
    Bool × Option UpstreamDoc × Option String :=
  if adminAPI = "" then (false, st, none)
  else
    let k := nodeKey s.host s.port
    if s.upstreamID = "" then (true, st, none)
    else
      let r := deleteNode k st
      (true, r.1, some k)

/-- A call into the health integration layer. -/
inductive HealthLayerOp where
  | start
  | shutdown
deriving DecidableEq

/-- `StartHealthCheck`: no-op success when health checking is disabled;
otherwise invokes the health layer's `start`, whose outcome the
`startFails` parameter models (the layer owns an external listener). -/
def StartHealthCheck (s : Service) (startFails : Bool) :
    Bool × List HealthLayerOp :=
  if !s.healthCheck then (true, [])
  else (!startFails, [HealthLayerOp.start])

/-- `Shutdown`: invokes the health layer's `shutdown` only when health
checking is enabled; `shutdownFails` models that call's outcome. -/
def Shutdown (s : Service) (shutdownFails : Bool) :
    Bool × List HealthLayerOp :=
  if s.healthCheck then (!shutdownFails, [HealthLayerOp.shutdown])
  else (true, [])

/-- Outcome of `StartWithGracefulShutdown` up to the point it returns to
the caller: success flag, remote gateway state at return, and the node
key of a `deleteNode` call issued by a `Deregister` run on the failure
path (`none` when no deregistration against the gateway happened). -/
structure StartOutcome where
  ok : Bool
  state : Option UpstreamDoc
  deregNode : Option String
deriving DecidableEq

/-- `StartWithGracefulShutdown`, first copy of registration.go (lines
234-278): `Register`, then `StartHealthCheck`; on health-check failure
it runs `_ = s.Deregister(adminAPI, apiKey)` before returning the error. -/
def StartWithGracefulShutdownA (s : Service) (adminAPI : String)
    (healthStartFails : Bool) (st : Option UpstreamDoc) : StartOutcome :=
  let reg := Register s adminAPI st
  if !reg.1 then { ok := false, state := st, deregNode := none }
  else
    let st1 := reg.2.1
    if !(StartHealthCheck s healthStartFails).1 then
      let d := Deregister s adminAPI st1
      { ok := false, state := d.2.1, deregNode := d.2.2 }
    else
      { ok := true, state := st1, deregNode := none }

/-- `StartWithGracefulShutdown`, second copy of registration.go (lines
573-611): `Register`, then `StartHealthCheck`; on health-check failure
it only logs and returns the error, leaving the registration standing. -/
def StartWithGracefulShutdownB (s : Service) (adminAPI : String)
    (healthStartFails : Bool) (st : Option UpstreamDoc) : StartOutcome :=
  let reg := Register s adminAPI st
  if !reg.1 then { ok := false, state := st, deregNode := none }
  else
    let st1 := reg.2.1
    if !(StartHealthCheck s healthStartFails).1 then
      { ok := false, state := st1, deregNode := none }
    else
      { ok := true, state := st1, deregNode := none }

/-! ## Health integration layer (health handlers) -/

/-- The JSON object served by a health endpoint, by field. -/
structure HealthBody where
  status : String
  service : String
  time : String
deriving DecidableEq

/-- An HTTP response of a health route: status code and JSON body. -/
structure HealthResponse where
  code : Nat
  body : HealthBody
deriving DecidableEq

/-- The GET request a mounted health route sees; `xServiceName` is the
value of the `X-Service-Name` header, `""` when the header is absent
(Go's `c.GetHeader`). -/
structure HttpRequest where
  path : String
  xServiceName : String
deriving DecidableEq

/-- `defaultHealthResponse`: the JSON object
`{"status":"ok","service":serviceName,"time":now}`, where `now` is the
RFC3339-formatted current time. -/
def defaultHealthResponse (serviceName now : String) : HealthBody :=
  { status := "ok", service := serviceName, time := now }

/-- `healthService.healthCheckHandler`: HTTP 200 with the default health
body for the configured service name. -/
def healthCheckHandler (serviceName now : String) : HealthResponse :=
  { code := 200, body := defaultHealthResponse serviceName now }

/-- `StandardHealthHandler.RegisterHealthCheck`: the substituted root
handler special-cases the health path and otherwise delegates to the
server's previous handler. -/
def standardHealthDispatch (healthPath serviceName now : String)
    (existing : HttpRequest → HealthResponse) (req : HttpRequest) :
    HealthResponse :=
  if req.path = healthPath then healthCheckHandler serviceName now
  else existing req

/-- `GinHealthHandler.RegisterHealthCheck`: the route it registers
answers 200 with `defaultHealthResponse(c.GetHeader("X-Service-Name"))`,
ignoring the handler (and hence the configured service name) it was
given. -/
def ginHealthRoute (now : String) (req : HttpRequest) : HealthResponse :=
  { code := 200, body := defaultHealthResponse req.xServiceName now }

/-- `GoZeroHealthHandler.RegisterHealthCheck` hands the health handler
itself to the caller-supplied `RegisterRoute`, so the mounted route
serves `healthCheckHandler`. -/
def goZeroHealthRoute (serviceName now : String) : HealthResponse :=
  healthCheckHandler serviceName now

/-- `healthService.startNewServer` (self-hosted variant): the gin route
answers 200 with JSON `{"status":"ok","service":serviceName,"time":now}`. -/
def selfHostedHealthRoute (serviceName now : String) : HealthResponse :=
  { code := 200
    body := { status := "ok", service := serviceName, time := now } }

/-! ## Helper lemmas on node sets -/

theorem nodesHas_append (ns ms : Nodes) (k : String) :
    nodesHas (ns ++ ms) k = (nodesHas ns k || nodesHas ms k) := by
  simp [nodesHas]

theorem nodesHas_singleton_self (k : String) (w : Nat) :
    nodesHas [(k, w)] k = true := by
  simp [nodesHas]

theorem nodesHas_eq_false_iff (ns : Nodes) (k : String) :
    nodesHas ns k = false ↔ k ∉ ns.map Prod.fst := by
  simp only [nodesHas, List.any_eq_false, List.mem_map]
  constructor
  · rintro h ⟨p, hp, hk⟩
    exact absurd (beq_iff_eq.mpr hk) (h p hp)
  · intro h p hp hbeq
    exact h ⟨p, hp, beq_iff_eq.mp hbeq⟩

theorem nodesLookup_eq_none_of_not_has (ns : Nodes) (k : String)
    (h : nodesHas ns k = false) : nodesLookup ns k = none := by
  induction ns with
  | nil => rfl
  | cons p rest ih =>
    rw [nodesHas, List.any_cons, Bool.or_eq_false_iff] at h
    rw [nodesLookup, if_neg (by simp [h.1])]
    exact ih h.2

theorem countKey_append (ns ms : Nodes) (k : String) :
    countKey (ns ++ ms) k = countKey ns k + countKey ms k := by
  simp [countKey]

theorem countKey_eq_zero_of_not_has (ns : Nodes) (k : String)
    (h : nodesHas ns k = false) : countKey ns k = 0 := by
  induction ns with
  | nil => rfl
  | cons p rest ih =>
    rw [nodesHas, List.any_cons, Bool.or_eq_false_iff] at h
    rw [countKey, List.filter_cons, if_neg (by simp [h.1])]
    exact ih h.2

theorem countKey_eq_one_of_wf_has (ns : Nodes) (k : String)
    (hwf : nodesWF ns) (h : nodesHas ns k = true) : countKey ns k = 1 := by
  induction ns with
  | nil => simp [nodesHas] at h
  | cons p rest ih =>
    rw [nodesWF, List.map_cons, List.nodup_cons] at hwf
    rw [nodesHas, List.any_cons, Bool.or_eq_true] at h
    by_cases hk : p.1 = k
    · rw [countKey, List.filter_cons, if_pos (by simp [hk])]
      have hrest : nodesHas rest k = false := by
        rw [nodesHas_eq_false_iff]
        rw [hk] at hwf
        exact hwf.1
      have h0 : countKey rest k = 0 := countKey_eq_zero_of_not_has rest k hrest
      rw [countKey] at h0
      simp [h0]
    · rcases h with h | h
      · exact absurd (beq_iff_eq.mp h) hk
      · rw [countKey, List.filter_cons, if_neg (by simp [hk])]
        exact ih hwf.2 h

theorem nodesWF_append_new (ns : Nodes) (k : String) (w : Nat)
    (hwf : nodesWF ns) (hk : nodesHas ns k = false) :
    nodesWF (ns ++ [(k, w)]) := by
  rw [nodesWF, List.map_append, List.nodup_append]
  refine ⟨hwf, by simp, ?_⟩
  intro a ha hb
  simp at hb
  rw [hb] at ha
  exact (nodesHas_eq_false_iff ns k).mp hk ha

theorem nodesLookup_append_of_ne (ns : Nodes) (k k' : String) (w : Nat)
    (h : k' ≠ k) : nodesLookup (ns ++ [(k, w)]) k' = nodesLookup ns k' := by
  induction ns with
  | nil => simp [nodesLookup, Ne.symm h]
  | cons p rest ih =>
    rw [List.cons_append, nodesLookup, nodesLookup]
    by_cases hp : p.1 = k'
    · rw [if_pos (by simp [hp]), if_pos (by simp [hp])]
    · rw [if_neg (by simp [hp]), if_neg (by simp [hp])]
      exact ih

theorem nodesLookup_append_self (ns : Nodes) (k : String) (w : Nat)
    (h : nodesHas ns k = false) :
    nodesLookup (ns ++ [(k, w)]) k = some w := by
  induction ns with
  | nil => simp [nodesLookup]
  | cons p rest ih =>
    rw [nodesHas, List.any_cons, Bool.or_eq_false_iff] at h
    rw [List.cons_append, nodesLookup, if_neg (by simp_all)]
    exact ih h.2

theorem applyPatchNodes_setNodeNull (ns : Nodes) (node : String) :
    applyPatchNodes (setNodeNull ns node) =
      ns.filter (fun p => !(p.1 == node)) := by
  induction ns with
  | nil => rfl
  | cons p rest ih =>
    rw [setNodeNull, List.map_cons, List.filter_cons]
    by_cases hp : p.1 = node
    · rw [if_pos (by simp [hp]), applyPatchNodes, List.filterMap_cons]
      simp only [Option.map_none]
      rw [if_neg (by simp [hp])]
      exact ih
    · rw [if_neg (by simp [hp]), applyPatchNodes, List.filterMap_cons]
      simp only [Option.map_some]
      rw [if_pos (by simp [hp])]
      exact congrArg (List.cons p) ih

theorem nodesLookup_filter_ne (ns : Nodes) (node k' : String)
    (h : k' ≠ node) :
    nodesLookup (ns.filter (fun p => !(p.1 == node))) k' =
      nodesLookup ns k' := by
  induction ns with
  | nil => rfl
  | cons p rest ih =>
    rw [List.filter_cons]
    by_cases hp : p.1 = node
    · rw [if_neg (by simp [hp]), nodesLookup, if_neg (by simp [hp, Ne.symm h])]
      exact ih
    · rw [if_pos (by simp [hp]), nodesLookup, nodesLookup]
      by_cases hpk : p.1 = k'
      · rw [if_pos (by simp [hpk]), if_pos (by simp [hpk])]
      · rw [if_neg (by simp [hpk]), if_neg (by simp [hpk])]
        exact ih

theorem nodesLookup_filter_self (ns : Nodes) (node : String) :
    nodesLookup (ns.filter (fun p => !(p.1 == node))) node = none := by
  induction ns with
  | nil => rfl
  | cons p rest ih =>
    rw [List.filter_cons]
    by_cases hp : p.1 = node
    · rw [if_neg (by simp [hp])]
      exact ih
    · rw [if_pos (by simp [hp]), nodesLookup, if_neg (by simp [hp])]
      exact ih

theorem createUpstream_contains (n h : String) (p : Int)
    (st : Option UpstreamDoc) :
    ∃ doc, (createUpstream n h p st).1 = some doc ∧
      nodesHas doc.nodes (nodeKey h p) = true := by
  cases st with
  | none =>
    refine ⟨_, rfl, ?_⟩
    exact nodesHas_singleton_self _ _
  | some doc =>
    rw [createUpstream]
    simp only [checkUpstreamExists, Option.isSome_some, if_pos]
    rw [addNodeToUpstream]
    by_cases hhas : nodesHas doc.nodes (nodeKey h p) = true
    · exact ⟨doc, by simp [hhas], hhas⟩
    · rw [if_neg hhas]
      refine ⟨_, rfl, ?_⟩
      rw [nodesHas_append, nodesHas_singleton_self, Bool.or_true]

theorem createUpstream_wf (n h : String) (p : Int) (st : Option UpstreamDoc)
    (hwf : upstreamWF st) : upstreamWF (createUpstream n h p st).1 := by
  cases st with
  | none =>
    show nodesWF [(nodeKey h p, 1)]
    simp [nodesWF]
  | some doc =>
    show upstreamWF (some (addNodeToUpstream h p doc).1)
    rw [addNodeToUpstream]
    cases hhas : nodesHas doc.nodes (nodeKey h p) with
    | true =>
      rw [if_pos rfl]
      exact hwf
    | false =>
      rw [if_neg (by simp)]
      exact nodesWF_append_new _ _ _ hwf hhas

/-! ## Helper lemmas on `New` -/

theorem string_append_ne_empty_left (a b : String) (h : a ≠ "") :
    a ++ b ≠ "" := by
  intro hab
  apply h
  have hd : (a ++ b).data = [] := by rw [hab]
  rw [String.data_append] at hd
  rcases List.append_eq_nil.mp hd with ⟨h1, _⟩
  ext1
  simp [h1]

theorem deriveUpstreamId_ne_empty (n h : String) (p : Int) (hn : n ≠ "") :
    deriveUpstreamId n h p ≠ "" := by
  rw [deriveUpstreamId]
  exact string_append_ne_empty_left _ _
    (string_append_ne_empty_left _ _
      (string_append_ne_empty_left _ _
        (string_append_ne_empty_left _ _ hn)))

theorem new_ok_fields (cfg : Config) (s : Service)
    (hnew : New cfg = Except.ok s) :
    s.name = cfg.name ∧ s.host = cfg.host ∧ s.port = cfg.port ∧
    s.healthCheck = cfg.healthCfg.enabled ∧
    s.upstreamID =
      (if cfg.upstreamId = "" then deriveUpstreamId cfg.name cfg.host cfg.port
       else cfg.upstreamId) ∧
    cfg.name ≠ "" := by
  by_cases h1 : cfg.name = ""
  · rw [New, if_pos h1] at hnew
    cases hnew
  by_cases h2 : cfg.host = ""
  · rw [New, if_neg h1, if_pos h2] at hnew
    cases hnew
  by_cases h3 : cfg.port ≤ 0
  · rw [New, if_neg h1, if_neg h2, if_pos h3] at hnew
    cases hnew
  rw [New, if_neg h1, if_neg h2, if_neg h3] at hnew
  cases hnew
  exact ⟨rfl, rfl, rfl, rfl, rfl, h1⟩

theorem upstreamID_ne_of_new (cfg : Config) (s : Service)
    (hnew : New cfg = Except.ok s) : s.upstreamID ≠ "" := by
  obtain ⟨-, -, -, -, hid, hn⟩ := new_ok_fields cfg s hnew
  rw [hid]
  by_cases hu : cfg.upstreamId = ""
  · rw [if_pos hu]
    exact deriveUpstreamId_ne_empty _ _ _ hn
  · rw [if_neg hu]
    exact hu

/-! ## Claims -/

/-- C1: `createOrJoinUpstream` (`createUpstream`) called twice in
sequence for the same upstream id and node key leaves exactly one entry
for that node key in the remote node set, whether or not the upstream
existed before the first call; when the node key is already present in
the fetched nodes map, the second call performs no write (and the
operation, being a modelled no-op, succeeds). -/
theorem c1_createOrJoinUpstream_idempotent (n h : String) (p : Int)
    (st : Option UpstreamDoc) (hwf : upstreamWF st) :
    (createUpstream n h p (createUpstream n h p st).1).2 = [] ∧
    ∃ doc, (createUpstream n h p (createUpstream n h p st).1).1 = some doc ∧
      countKey doc.nodes (nodeKey h p) = 1 := by
  obtain ⟨d1, hd1, hhas1⟩ := createUpstream_contains n h p st
  have hwf1 : nodesWF d1.nodes := by
    have := createUpstream_wf n h p st hwf
    rw [hd1] at this
    exact this
  rw [hd1]
  have hsecond : createUpstream n h p (some d1) = (some d1, []) := by
    show (some (addNodeToUpstream h p d1).1, (addNodeToUpstream h p d1).2) =
      (some d1, [])
    simp only [addNodeToUpstream, hhas1, if_true]
  rw [hsecond]
  exact ⟨rfl, d1, rfl, countKey_eq_one_of_wf_has _ _ hwf1 hhas1⟩

/-- Witness for C1 at a concrete input: the empty gateway state is
well-formed and double registration of `svc` at `10.0.0.5:9000` leaves
one entry. -/
theorem c1_witness :
    upstreamWF (none : Option UpstreamDoc) ∧
    ((createUpstream "svc" "10.0.0.5" 9000
        (createUpstream "svc" "10.0.0.5" 9000 none).1).2 = [] ∧
      ∃ doc,
        (createUpstream "svc" "10.0.0.5" 9000
            (createUpstream "svc" "10.0.0.5" 9000 none).1).1 = some doc ∧
        countKey doc.nodes (nodeKey "10.0.0.5" 9000) = 1) :=
  ⟨trivial, c1_createOrJoinUpstream_idempotent "svc" "10.0.0.5" 9000 none trivial⟩

/-- C2: registering against an existing upstream only adds this
instance's node key with weight 1 and leaves every other key-to-weight
entry of the fetched document unchanged, and `removeNode` (`deleteNode`)
only removes this instance's own node key, leaving every other node
entry untouched. -/
theorem c2_reconciler_frame (n h : String) (p : Int) (doc : UpstreamDoc)
    (node k' : String) (st : Option UpstreamDoc) :
    (k' ≠ nodeKey h p →
      upstreamLookup (createUpstream n h p (some doc)).1 k' =
        nodesLookup doc.nodes k') ∧
    (nodesHas doc.nodes (nodeKey h p) = false →
      upstreamLookup (createUpstream n h p (some doc)).1 (nodeKey h p) =
        some 1) ∧
    (k' ≠ node →
      upstreamLookup (deleteNode node st).1 k' = upstreamLookup st k') ∧
    upstreamLookup (deleteNode node st).1 node = none := by
  have hcreate : (createUpstream n h p (some doc)).1 =
      some (addNodeToUpstream h p doc).1 := rfl
  refine ⟨?_, ?_, ?_, ?_⟩
  · intro hne
    rw [hcreate, upstreamLookup, addNodeToUpstream]
    cases hhas : nodesHas doc.nodes (nodeKey h p) with
    | true => rw [if_pos rfl]
    | false =>
      rw [if_neg (by simp)]
      exact nodesLookup_append_of_ne _ _ _ _ hne
  · intro hhas
    rw [hcreate, upstreamLookup, addNodeToUpstream, if_neg (by simp [hhas])]
    exact nodesLookup_append_self _ _ _ hhas
  · intro hne
    cases st with
    | none => rfl
    | some d =>
      rw [deleteNode]
      cases hhas : nodesHas d.nodes node with
      | true =>
        rw [if_pos rfl]
        show nodesLookup (applyPatchNodes (setNodeNull d.nodes node)) k' =
          nodesLookup d.nodes k'
        rw [applyPatchNodes_setNodeNull]
        exact nodesLookup_filter_ne _ _ _ hne
      | false =>
        rw [if_neg (by simp)]
  · cases st with
    | none => rfl
    | some d =>
      rw [deleteNode]
      cases hhas : nodesHas d.nodes node with
      | true =>
        rw [if_pos rfl]
        show nodesLookup (applyPatchNodes (setNodeNull d.nodes node)) node =
          none
        rw [applyPatchNodes_setNodeNull]
        exact nodesLookup_filter_self _ _
      | false =>
        rw [if_neg (by simp)]
        exact nodesLookup_eq_none_of_not_has _ _ hhas

/-- Witness for C2 at concrete inputs: a sibling entry `a:1 ↦ 3`
survives both registration of `10.0.0.5:9000` and deregistration of
`b:2`. -/
theorem c2_witness :
    upstreamLookup
        (createUpstream "svc" "10.0.0.5" 9000
          (some { name := "svc", utype := "roundrobin",
                  nodes := [("a:1", 3)] })).1 "a:1" =
      nodesLookup [("a:1", 3)] "a:1" ∧
    upstreamLookup
        (deleteNode "b:2"
          (some { name := "svc", utype := "roundrobin",
                  nodes := [("a:1", 3), ("b:2", 1)] })).1 "a:1" =
      upstreamLookup
        (some { name := "svc", utype := "roundrobin",
                nodes := [("a:1", 3), ("b:2", 1)] }) "a:1" :=
  ⟨(c2_reconciler_frame "svc" "10.0.0.5" 9000
      { name := "svc", utype := "roundrobin", nodes := [("a:1", 3)] }
      "b:2" "a:1" none).1 (by decide),
   (c2_reconciler_frame "svc" "10.0.0.5" 9000
      { name := "svc", utype := "roundrobin", nodes := [("a:1", 3)] }
      "b:2" "a:1"
      (some { name := "svc", utype := "roundrobin",
              nodes := [("a:1", 3), ("b:2", 1)] })).2.2.1 (by decide)⟩

/-- C3 counterexample: deleting the present node `10.0.0.5:9000` issues
a PATCH whose body carries the `name` and `type` fields of the fetched
document as well, so the write is not a PATCH of only the `nodes`
field. -/
theorem c3_counterexample :
    ((deleteNode "10.0.0.5:9000"
        (some { name := "svc", utype := "roundrobin",
                nodes := [("10.0.0.5:9000", 1)] })).2.all
      specPatchOnlyNodesField) = false := by
  rfl

/-- C3 amended: `removeNode` (`deleteNode`) returns success without any
write when the upstream is absent (404) or the node key is absent from
the fetched nodes map; when the key is present it issues exactly one
PATCH whose body is the whole fetched document — name, type and the
nodes map with that node set to null — and the resulting remote document
has that node removed. -/
theorem c3_removeNode_writes (node : String) (st : Option UpstreamDoc) :
    (st = none → deleteNode node st = (none, [])) ∧
    (∀ doc, st = some doc → nodesHas doc.nodes node = false →
      deleteNode node st = (some doc, [])) ∧
    (∀ doc, st = some doc → nodesHas doc.nodes node = true →
      (deleteNode node st).2 =
        [AdminWrite.patchUpstream
          { name := some doc.name, utype := some doc.utype,
            nodes := setNodeNull doc.nodes node }] ∧
      (deleteNode node st).1 =
        some { doc with
               nodes := (doc.nodes.filter (fun q => !(q.1 == node))) }) := by
  refine ⟨?_, ?_, ?_⟩
  · rintro rfl
    rfl
  · rintro doc rfl hhas
    rw [deleteNode, if_neg (by simp [hhas])]
  · rintro doc rfl hhas
    rw [deleteNode, if_pos hhas]
    refine ⟨rfl, ?_⟩
    show some { doc with nodes := applyPatchNodes (setNodeNull doc.nodes node) } =
      some { doc with nodes := doc.nodes.filter (fun q => !(q.1 == node)) }
    rw [applyPatchNodes_setNodeNull]

/-- Witness for C3 at concrete inputs: deletion from an absent upstream,
deletion of an absent key, and deletion of the present key `a:1`. -/
theorem c3_witness :
    deleteNode "x:1" (none : Option UpstreamDoc) = (none, []) ∧
    deleteNode "x:1"
        (some { name := "svc", utype := "roundrobin",
                nodes := [("a:1", 3)] }) =
      (some { name := "svc", utype := "roundrobin", nodes := [("a:1", 3)] },
        []) ∧
    (deleteNode "a:1"
        (some { name := "svc", utype := "roundrobin",
                nodes := [("a:1", 3)] })).2 =
      [AdminWrite.patchUpstream
        { name := some "svc", utype := some "roundrobin",
          nodes := [("a:1", none)] }] :=
  ⟨(c3_removeNode_writes "x:1" none).1 rfl,
   (c3_removeNode_writes "x:1"
      (some { name := "svc", utype := "roundrobin",
              nodes := [("a:1", 3)] })).2.1 _ rfl (by decide),
   ((c3_removeNode_writes "a:1"
      (some { name := "svc", utype := "roundrobin",
              nodes := [("a:1", 3)] })).2.2 _ rfl (by decide)).1⟩

/-- C4: `removeNode` (`deleteNode`) never issues a delete of the
upstream document itself: the document stays present exactly when it was
present, no delete-upstream write appears in the trace, and removing the
last remaining node writes back an upstream with an empty node set. -/
theorem c4_removeNode_never_deletes_upstream (node : String)
    (st : Option UpstreamDoc) :
    ((deleteNode node st).2.all (fun w => !writeIsDeleteUpstream w)) = true ∧
    (deleteNode node st).1.isSome = st.isSome ∧
    (∀ doc w, st = some doc → doc.nodes = [(node, w)] →
      (deleteNode node st).1 = some { doc with nodes := [] }) := by
  refine ⟨?_, ?_, ?_⟩
  · cases st with
    | none => rfl
    | some d =>
      rw [deleteNode]
      cases hhas : nodesHas d.nodes node with
      | true => rw [if_pos rfl]; rfl
      | false => rw [if_neg (by simp)]; rfl
  · cases st with
    | none => rfl
    | some d =>
      rw [deleteNode]
      cases hhas : nodesHas d.nodes node with
      | true => rw [if_pos rfl]; rfl
      | false => rw [if_neg (by simp)]
  · rintro doc w rfl hnodes
    rw [deleteNode,
      if_pos (by rw [hnodes]; exact nodesHas_singleton_self node w)]
    show some { doc with nodes := applyPatchNodes (setNodeNull doc.nodes node) } =
      some { doc with nodes := [] }
    rw [applyPatchNodes_setNodeNull, hnodes]
    simp

/-- Witness for C4 at a concrete input: deleting the single node of a
one-node upstream leaves an empty-but-present document. -/
theorem c4_witness :
    (deleteNode "a:1"
        (some { name := "svc", utype := "roundrobin",
                nodes := [("a:1", 3)] })).1 =
      some { name := "svc", utype := "roundrobin", nodes := [] } :=
  (c4_removeNode_never_deletes_upstream "a:1"
      (some { name := "svc", utype := "roundrobin",
              nodes := [("a:1", 3)] })).2.2 _ 3 rfl rfl

/-- C5 counterexample: for the configuration `{name := "svc", host := "",
port := 9000}`, `New` does not succeed with a defaulted loopback host —
it fails with the empty-host error. -/
theorem c5_counterexample :
    New { name := "svc", host := "", port := 9000, path := "",
          upstreamId := "", upstreamTypes := "", adminAPI := "",
          apiKey := "", healthCfg := ⟨false, 0, 0, "", "", 0, 0⟩ } =
      Except.error NewError.emptyHost := by
  rfl

/-- C5 amended: `New` performs no host defaulting; construction succeeds
exactly when the name is non-empty, the host is non-empty, and the port
is positive, and fails (among others) for an empty host. -/
theorem c5_new_validation (cfg : Config) :
    (∃ s, New cfg = Except.ok s) ↔
      (cfg.name ≠ "" ∧ cfg.host ≠ "" ∧ 0 < cfg.port) := by
  constructor
  · rintro ⟨s, hs⟩
    by_cases h1 : cfg.name = ""
    · rw [New, if_pos h1] at hs
      cases hs
    by_cases h2 : cfg.host = ""
    · rw [New, if_neg h1, if_pos h2] at hs
      cases hs
    by_cases h3 : cfg.port ≤ 0
    · rw [New, if_neg h1, if_neg h2, if_pos h3] at hs
      cases hs
    exact ⟨h1, h2, not_le.mp h3⟩
  · rintro ⟨h1, h2, h3⟩
    exact ⟨_, by rw [New, if_neg h1, if_neg h2, if_neg (not_le.mpr h3)]⟩

/-- Witness for C5 amended at a concrete valid configuration. -/
theorem c5_witness :
    ∃ s, New { name := "svc", host := "10.0.0.5", port := 9000, path := "",
               upstreamId := "", upstreamTypes := "", adminAPI := "",
               apiKey := "", healthCfg := ⟨false, 0, 0, "", "", 0, 0⟩ } =
      Except.ok s :=
  (c5_new_validation
    { name := "svc", host := "10.0.0.5", port := 9000, path := "",
      upstreamId := "", upstreamTypes := "", adminAPI := "", apiKey := "",
      healthCfg := ⟨false, 0, 0, "", "", 0, 0⟩ }).mpr
    ⟨by decide, by decide, by decide⟩

/-- C6 counterexample: on a service built by `New` with health checking
enabled, the first copy of `StartWithGracefulShutdown` (registration.go
lines 234-244) reacts to a health-check start failure by calling
`Deregister`, which issues a `deleteNode` for this instance's node key —
a deregistration call is made before the error is returned. -/
theorem c6_counterexample :
    New { name := "svc", host := "10.0.0.5", port := 9000, path := "",
          upstreamId := "", upstreamTypes := "", adminAPI := "",
          apiKey := "", healthCfg := ⟨true, 0, 0, "", "", 0, 0⟩ } =
      Except.ok { name := "svc", host := "10.0.0.5", port := 9000,
                  path := "/", upstreamID := "svc_10.0.0.5_9000",
                  routeID := "svc_route", healthCheck := true,
                  interval := DefaultHealthCheckInterval } ∧
    (StartWithGracefulShutdownA
        { name := "svc", host := "10.0.0.5", port := 9000, path := "/",
          upstreamID := "svc_10.0.0.5_9000", routeID := "svc_route",
          healthCheck := true, interval := DefaultHealthCheckInterval }
        "http://apisix-admin:9180/apisix/admin" true none).deregNode =
      some "10.0.0.5:9000" :=
  ⟨rfl, rfl⟩

/-- C6 amended: when `Register` succeeded and `StartHealthCheck` fails,
the second copy of `StartWithGracefulShutdown` (lines 573-582) returns
the error with the registration left standing — no deregistration call
is made and the registered node is still present — while the first copy
(lines 234-244) issues a best-effort `Deregister` (a `deleteNode` of
this instance's node key) before returning the error. -/
theorem c6_health_failure_dereg_variants (cfg : Config) (s : Service)
    (adminAPI : String) (st : Option UpstreamDoc)
    (hnew : New cfg = Except.ok s) (hhc : s.healthCheck = true)
    (hapi : adminAPI ≠ "") :
    (StartWithGracefulShutdownB s adminAPI true st).ok = false ∧
    (StartWithGracefulShutdownB s adminAPI true st).deregNode = none ∧
    (∃ doc, (StartWithGracefulShutdownB s adminAPI true st).state =
        some doc ∧
      nodesHas doc.nodes (nodeKey s.host s.port) = true) ∧
    (StartWithGracefulShutdownA s adminAPI true st).deregNode =
      some (nodeKey s.host s.port) := by
  have hid := upstreamID_ne_of_new cfg s hnew
  have hreg : Register s adminAPI st =
      (true, (createUpstream s.name s.host s.port st).1,
        (createUpstream s.name s.host s.port st).2) := by
    rw [Register, if_neg hapi]
  have hhcstart : (StartHealthCheck s true).1 = false := by
    rw [StartHealthCheck, hhc]
    rfl
  have hdereg : Deregister s adminAPI (createUpstream s.name s.host s.port st).1 =
      (true,
        (deleteNode (nodeKey s.host s.port)
          (createUpstream s.name s.host s.port st).1).1,
        some (nodeKey s.host s.port)) := by
    rw [Deregister, if_neg hapi, if_neg hid]
  have hB : StartWithGracefulShutdownB s adminAPI true st =
      { ok := false, state := (createUpstream s.name s.host s.port st).1,
        deregNode := none } := by
    rw [StartWithGracefulShutdownB]
    simp only [hreg, hhcstart, Bool.not_true, Bool.not_false, if_true, if_false]
    rfl
  have hA : (StartWithGracefulShutdownA s adminAPI true st).deregNode =
      some (nodeKey s.host s.port) := by
    rw [StartWithGracefulShutdownA]
    simp only [hreg, hhcstart, Bool.not_true, Bool.not_false, if_true, if_false,
      hdereg]
    rfl
  rw [hB]
  exact ⟨rfl, rfl, createUpstream_contains s.name s.host s.port st, hA⟩

/-- Witness for C6 amended, at the concrete service of the
counterexample's configuration. -/
theorem c6_witness :
    (StartWithGracefulShutdownB
        { name := "svc", host := "10.0.0.5", port := 9000, path := "/",
          upstreamID := "svc_10.0.0.5_9000", routeID := "svc_route",
          healthCheck := true, interval := DefaultHealthCheckInterval }
        "http://apisix-admin:9180/apisix/admin" true none).ok = false ∧
    (StartWithGracefulShutdownB
        { name := "svc", host := "10.0.0.5", port := 9000, path := "/",
          upstreamID := "svc_10.0.0.5_9000", routeID := "svc_route",
          healthCheck := true, interval := DefaultHealthCheckInterval }
        "http://apisix-admin:9180/apisix/admin" true none).deregNode =
      none ∧
    (∃ doc, (StartWithGracefulShutdownB
        { name := "svc", host := "10.0.0.5", port := 9000, path := "/",
          upstreamID := "svc_10.0.0.5_9000", routeID := "svc_route",
          healthCheck := true, interval := DefaultHealthCheckInterval }
        "http://apisix-admin:9180/apisix/admin" true none).state =
        some doc ∧
      nodesHas doc.nodes (nodeKey "10.0.0.5" 9000) = true) ∧
    (StartWithGracefulShutdownA
        { name := "svc", host := "10.0.0.5", port := 9000, path := "/",
          upstreamID := "svc_10.0.0.5_9000", routeID := "svc_route",
          healthCheck := true, interval := DefaultHealthCheckInterval }
        "http://apisix-admin:9180/apisix/admin" true none).deregNode =
      some (nodeKey "10.0.0.5" 9000) :=
  c6_health_failure_dereg_variants
    { name := "svc", host := "10.0.0.5", port := 9000, path := "",
      upstreamId := "", upstreamTypes := "", adminAPI := "",
      apiKey := "", healthCfg := ⟨true, 0, 0, "", "", 0, 0⟩ }
    { name := "svc", host := "10.0.0.5", port := 9000, path := "/",
      upstreamID := "svc_10.0.0.5_9000", routeID := "svc_route",
      healthCheck := true, interval := DefaultHealthCheckInterval }
    "http://apisix-admin:9180/apisix/admin" none rfl rfl (by decide)

/-- C7: the upstream id derivation `"{name}_{host}_{port}"` is a pure
function, so deriving twice from the same triple yields the same id; and
registering `{name:"svc", host:"10.0.0.5", port:9000}` with no explicit
upstream id against an empty gateway yields upstream id
`"svc_10.0.0.5_9000"` and remote nodes `{"10.0.0.5:9000": 1}`. -/
theorem c7_upstream_id_derivation :
    (∀ (n h : String) (p : Int),
      deriveUpstreamId n h p = deriveUpstreamId n h p) ∧
    ∃ s, New { name := "svc", host := "10.0.0.5", port := 9000, path := "",
               upstreamId := "", upstreamTypes := "", adminAPI := "",
               apiKey := "", healthCfg := ⟨false, 0, 0, "", "", 0, 0⟩ } =
        Except.ok s ∧
      s.upstreamID = "svc_10.0.0.5_9000" ∧
      (Register s "http://apisix-admin:9180/apisix/admin" none).2.1 =
        some { name := "svc", utype := "roundrobin",
               nodes := [("10.0.0.5:9000", 1)] } :=
  ⟨fun _ _ _ => rfl, _, rfl, rfl, rfl⟩

/-- C8 counterexample: for a service configured with name `"svc"`, the
Gin adapter's mounted health route answers a request without an
`X-Service-Name` header with a `service` field that is not the
configured service name (it echoes the header, here empty). -/
theorem c8_counterexample :
    ¬ ((ginHealthRoute "2026-10-11T08:00:00Z"
          { path := "/health", xServiceName := "" }).body.service =
        "svc") := by
  decide

/-- C8 amended: on a request to the mounted health path, the
self-hosted, externally-owned-server and generic-router variants answer
HTTP 200 with status `"ok"`, the configured service name and the
RFC3339-formatted current time; the Gin adapter also answers 200 with
status `"ok"` and that time, but its `service` field echoes the
request's `X-Service-Name` header instead of the configured name. -/
theorem c8_health_response_variants (name now healthPath : String)
    (existing : HttpRequest → HealthResponse) (req : HttpRequest)
    (hpath : req.path = healthPath) :
    selfHostedHealthRoute name now =
      { code := 200, body := { status := "ok", service := name, time := now } } ∧
    standardHealthDispatch healthPath name now existing req =
      { code := 200, body := { status := "ok", service := name, time := now } } ∧
    goZeroHealthRoute name now =
      { code := 200, body := { status := "ok", service := name, time := now } } ∧
    ginHealthRoute now req =
      { code := 200,
        body := { status := "ok", service := req.xServiceName, time := now } } := by
  refine ⟨rfl, ?_, rfl, rfl⟩
  rw [standardHealthDispatch, if_pos hpath]
  rfl

/-- Witness for C8 amended at a concrete service, path and request. -/
theorem c8_witness :
    standardHealthDispatch "/health" "svc" "2026-10-11T08:00:00Z"
        (fun _ => { code := 404,
                    body := { status := "", service := "", time := "" } })
        { path := "/health", xServiceName := "" } =
      { code := 200,
        body := { status := "ok", service := "svc",
                  time := "2026-10-11T08:00:00Z" } } ∧
    ginHealthRoute "2026-10-11T08:00:00Z"
        { path := "/health", xServiceName := "" } =
      { code := 200,
        body := { status := "ok", service := "",
                  time := "2026-10-11T08:00:00Z" } } :=
  ⟨(c8_health_response_variants "svc" "2026-10-11T08:00:00Z" "/health"
      (fun _ => { code := 404,
                  body := { status := "", service := "", time := "" } })
      { path := "/health", xServiceName := "" } rfl).2.1,
   (c8_health_response_variants "svc" "2026-10-11T08:00:00Z" "/health"
      (fun _ => { code := 404,
                  body := { status := "", service := "", time := "" } })
      { path := "/health", xServiceName := "" } rfl).2.2.2⟩

/-- C9: for a service constructed with health checking disabled,
`StartHealthCheck` and `Shutdown` both return success without invoking
the health layer's start or shutdown (no listener or network
operation). -/
theorem c9_disabled_health_noop (cfg : Config) (s : Service)
    (startFails shutdownFails : Bool) (hnew : New cfg = Except.ok s)
    (hdis : cfg.healthCfg.enabled = false) :
    StartHealthCheck s startFails = (true, []) ∧
    Shutdown s shutdownFails = (true, []) := by
  obtain ⟨-, -, -, hhc, -, -⟩ := new_ok_fields cfg s hnew
  rw [hdis] at hhc
  constructor
  · rw [StartHealthCheck, hhc]
    rfl
  · rw [Shutdown, hhc]
    rfl

/-- Witness for C9 at a concrete disabled-health configuration. -/
theorem c9_witness :
    StartHealthCheck
        { name := "svc", host := "10.0.0.5", port := 9000, path := "/",
          upstreamID := "svc_10.0.0.5_9000", routeID := "svc_route",
          healthCheck := false, interval := 0 } true = (true, []) ∧
    Shutdown
        { name := "svc", host := "10.0.0.5", port := 9000, path := "/",
          upstreamID := "svc_10.0.0.5_9000", routeID := "svc_route",
          healthCheck := false, interval := 0 } true = (true, []) :=
  c9_disabled_health_noop
    { name := "svc", host := "10.0.0.5", port := 9000, path := "",
      upstreamId := "", upstreamTypes := "", adminAPI := "", apiKey := "",
      healthCfg := ⟨false, 0, 0, "", "", 0, 0⟩ }
    { name := "svc", host := "10.0.0.5", port := 9000, path := "/",
      upstreamID := "svc_10.0.0.5_9000", routeID := "svc_route",
      healthCheck := false, interval := 0 } true true rfl rfl

/-- C10: every service returned by `New` carries a non-empty upstream
id, so `Deregister`'s guard that skips node deletion on an empty
upstream id is never taken for such a service: with a non-empty admin
address it always attempts removal of this instance's node key via
`deleteNode`. -/
theorem c10_deregister_attempts_removal (cfg : Config) (s : Service)
    (adminAPI : String) (st : Option UpstreamDoc)
    (hnew : New cfg = Except.ok s) (hapi : adminAPI ≠ "") :
    s.upstreamID ≠ "" ∧
    Deregister s adminAPI st =
      (true, (deleteNode (nodeKey s.host s.port) st).1,
        some (nodeKey s.host s.port)) := by
  have hid := upstreamID_ne_of_new cfg s hnew
  refine ⟨hid, ?_⟩
  rw [Deregister, if_neg hapi, if_neg hid]

/-- Witness for C10 at a concrete service obtained from `New` and a
concrete gateway state. -/
theorem c10_witness :
    ({ name := "svc", host := "10.0.0.5", port := 9000, path := "/",
       upstreamID := "svc_10.0.0.5_9000", routeID := "svc_route",
       healthCheck := false, interval := 0 } : Service).upstreamID ≠ "" ∧
    Deregister
        { name := "svc", host := "10.0.0.5", port := 9000, path := "/",
          upstreamID := "svc_10.0.0.5_9000", routeID := "svc_route",
          healthCheck := false, interval := 0 }
        "http://apisix-admin:9180/apisix/admin" none =
      (true, (deleteNode (nodeKey "10.0.0.5" 9000) none).1,
        some (nodeKey "10.0.0.5" 9000)) :=
  c10_deregister_attempts_removal
    { name := "svc", host := "10.0.0.5", port := 9000, path := "",
      upstreamId := "", upstreamTypes := "", adminAPI := "", apiKey := "",
      healthCfg := ⟨false, 0, 0, "", "", 0, 0⟩ }
    { name := "svc", host := "10.0.0.5", port := 9000, path := "/",
      upstreamID := "svc_10.0.0.5_9000", routeID := "svc_route",
      healthCheck := false, interval := 0 }
    "http://apisix-admin:9180/apisix/admin" none rfl (by decide)

end ApisixRegistration
